import Mathlib

/-!
Verification development for cacheplus (hyprxa/cacheplus).

We shallowly embed the cache orchestrator of src/cacheplus/value.py:
the wrapper closure produced by the decorators `cache_value` (lines
107-152) and `async_cache_value` (lines 213-261).  The two wrapper
bodies are line-for-line identical except for `await` keywords; under
the sequential (single call at a time) semantics the claims quantify
over, suspension points are unobservable, so one Lean function
`wrapperCall` embeds both flavors.

External collaborators (Storage, the pickle codec, the wrapped
function, the key deriver) are modelled as components of an
environment record.  A Python exception is modelled as a class tag
plus an identity token, so that "propagates unmodified" is expressible
as the very same exception value reappearing in the call outcome.
-/

namespace Cacheplus

/-- Class of a Python exception, as dispatched by the except-clauses in
value.py: `ImproperlyConfiguredException` (caught at lines 123/232),
`pickle.UnpicklingError` (lines 134/243), `TypeError` and
`pickle.PicklingError` (lines 142/251).  `other n` stands for any other
exception class (for example `EOFError` or `AttributeError` raised by
`pickle.loads`, or an application exception raised by the wrapped
function). -/
inductive PyClass where
  | improperlyConfigured
  | unpickling
  | typeError
  | pickling
  | other (n : Nat)
deriving DecidableEq, Repr

/-- A Python exception object: its class plus an identity token.
Propagating "unmodified" means the same `PyExc` value reappears in the
outcome; wrapping with `raise X from e` means the outcome records `e`
as the cause. -/
structure PyExc where
  cls : PyClass
  tok : Nat
deriving DecidableEq, Repr

/-- Result of `storage.get(key)` (value.py line 122 / 231): Python
returns the payload bytes, `None` as the absent marker, or raises. -/
inductive GetOutcome (P : Type) where
  | ok (res : Option P)
  | raises (e : PyExc)
deriving DecidableEq, Repr

/-- Result of `storage.set(key, data, expires_in=...)` (line 145 / 254). -/
inductive SetOutcome where
  | ok
  | raises (e : PyExc)
deriving DecidableEq, Repr

/-- Result of `pickle.loads(data)` (line 133 / 242). -/
inductive DecodeOutcome (V : Type) where
  | ok (v : V)
  | raises (e : PyExc)
deriving DecidableEq, Repr

/-- Result of `pickle.dumps(value)` (line 141 / 250). -/
inductive EncodeOutcome (P : Type) where
  | ok (p : P)
  | raises (e : PyExc)
deriving DecidableEq, Repr

/-- Result of invoking the wrapped function (line 138 / 247). -/
inductive FuncOutcome (V : Type) where
  | ok (v : V)
  | raises (e : PyExc)
deriving DecidableEq, Repr

/-- Environment of one decorated function: the collaborators the wrapper
closure uses.  Type parameters: `A` argument packs, `K` cache keys,
`P` byte payloads, `V` Python values, `σ` storage backend state.

* `keyOf` embeds `make_value_key(function_key, func, type_encoders, ...)`
  (line 118 / 227): it either yields the call key or raises
  `UnhashableParamError` carrying the offending parameter name and its
  type name.
* `get` / `set` are the bound Storage instance; state is threaded.
* `expiresIn` is the configured retention duration `self._expires_in`
  (`int | timedelta | None`, modelled as `Option Int` in seconds).
* `decode` / `encode` are `pickle.loads` / `pickle.dumps`.
* `func n a` is the outcome of the n-th invocation of the wrapped
  function on argument pack `a` (the index lets a theorem speak about
  a function whose behavior differs between invocations). -/
structure Env (A K P V σ : Type) where
  keyOf : A → Except (String × String) K
  get : σ → K → GetOutcome P × σ
  set : σ → K → P → Option Int → SetOutcome × σ
  expiresIn : Option Int
  decode : P → DecodeOutcome V
  encode : V → EncodeOutcome P
  func : Nat → A → FuncOutcome V

/-- Which storage operation a `CacheError` message names: the code
raises "An error occurred while getting KEY from storage" (line 126),
"Failed to unpickle KEY" (line 135), and "An error occurred while
saving KEY to storage" (line 147). -/
inductive CacheOp where
  | getting
  | unpickle
  | saving
deriving DecidableEq, Repr

/-- Observable outcome of one wrapper invocation.

* `value v` — the call returns `v`.
* `unhashableParam p t` — `UnhashableParamError` naming parameter `p`
  of type `t` propagates out of `make_value_key`.
* `cacheError op key cause` — `CacheError` raised via
  `raise CacheError(...) from e`, its message naming the operation and
  the key, with `cause` the original exception.
* `unserializable v cause` — `UnserializableReturnValueError(func=func,
  value=v)` raised with the original encode failure as `cause`
  (the function reference is the one function of this environment).
* `reraised e` — the Python exception `e` propagates unmodified. -/
inductive Outcome (K P V : Type) where
  | value (v : V)
  | unhashableParam (param ty : String)
  | cacheError (op : CacheOp) (key : K) (cause : PyExc)
  | unserializable (v : V) (cause : PyExc)
  | reraised (e : PyExc)
deriving DecidableEq, Repr

/-- Observable side effects of one wrapper invocation, in order. -/
inductive Event (A K P : Type) where
  | getCalled (k : K)
  | funcCalled (a : A)
  | setCalled (k : K) (p : P) (ttl : Option Int)
deriving DecidableEq, Repr

/-- Result of one wrapper invocation: the outcome, the storage state
after the call, and the trace of collaborator calls made. -/
structure CallRes (A K P V σ : Type) where
  outcome : Outcome K P V
  state : σ
  events : List (Event A K P)

/-- Embedding of the wrapper closure, value.py lines 117-150 (sync) and
lines 226-259 (async): derive the key, look the key up in storage,
return a decoded hit, otherwise invoke the wrapped function, encode the
value, store it and return it.  The except-clauses are embedded as
class dispatch on the raised exception:

* around `storage.get`: `ImproperlyConfiguredException` is re-raised
  bare (line 124), every other exception is wrapped into `CacheError`
  (line 126);
* around `pickle.loads`: only `pickle.UnpicklingError` is wrapped into
  `CacheError` (line 134); any other exception propagates;
* the wrapped function is called outside any try-block (line 138), so
  its exceptions always propagate;
* around `pickle.dumps`: `TypeError` and `pickle.PicklingError` are
  wrapped into `UnserializableReturnValueError` (line 142); any other
  exception propagates;
* around `storage.set`: every exception is wrapped into `CacheError`
  (line 146).

`n` is the number of wrapped-function invocations made before this
call; `a` is the call's argument pack.  The concurrency gate (lines
102-105 / 208-211) only affects interleavings of concurrent calls and
is identity under this sequential semantics; the lazy storage binding
(lines 111-115 / 217-224) resolves the same storage instance on every
call, so the bound storage appears here as the fixed `env.get` /
`env.set` pair. -/
def wrapperCall {A K P V σ : Type} (env : Env A K P V σ) (st : σ)
    (n : Nat) (a : A) : CallRes A K P V σ :=
  match env.keyOf a with
  | .error (param, ty) => ⟨.unhashableParam param ty, st, []⟩
  | .ok key =>
    match env.get st key with
    | (.raises e, st1) =>
      if e.cls = .improperlyConfigured then
        ⟨.reraised e, st1, [.getCalled key]⟩
      else
        ⟨.cacheError .getting key e, st1, [.getCalled key]⟩
    | (.ok (some data), st1) =>
      match env.decode data with
      | .ok v => ⟨.value v, st1, [.getCalled key]⟩
      | .raises e =>
        if e.cls = .unpickling then
          ⟨.cacheError .unpickle key e, st1, [.getCalled key]⟩
        else
          ⟨.reraised e, st1, [.getCalled key]⟩
    | (.ok none, st1) =>
      match env.func n a with
      | .raises e => ⟨.reraised e, st1, [.getCalled key, .funcCalled a]⟩
      | .ok value =>
        match env.encode value with
        | .raises e =>
          if e.cls = .typeError ∨ e.cls = .pickling then
            ⟨.unserializable value e, st1, [.getCalled key, .funcCalled a]⟩
          else
            ⟨.reraised e, st1, [.getCalled key, .funcCalled a]⟩
        | .ok data =>
          match env.set st1 key data env.expiresIn with
          | (.raises e, st2) =>
            ⟨.cacheError .saving key e, st2,
              [.getCalled key, .funcCalled a,
               .setCalled key data env.expiresIn]⟩
          | (.ok, st2) =>
            ⟨.value value, st2,
              [.getCalled key, .funcCalled a,
               .setCalled key data env.expiresIn]⟩

/-- The wrapper of `async_cache_value` (value.py lines 213-261) has the
same control flow as the sync wrapper, so it is embedded by the same
function. -/
def asyncWrapperCall {A K P V σ : Type} (env : Env A K P V σ) (st : σ)
    (n : Nat) (a : A) : CallRes A K P V σ :=
  wrapperCall env st n a

/-- Number of wrapped-function invocations a trace records. -/
def funcCalls {A K P : Type} (evs : List (Event A K P)) : Nat :=
  evs.countP fun ev => match ev with
    | .funcCalled _ => true
    | _ => false

/-- Number of `storage.set` calls a trace records. -/
def setCalls {A K P : Type} (evs : List (Event A K P)) : Nat :=
  evs.countP fun ev => match ev with
    | .setCalled _ _ _ => true
    | _ => false

/-- Two sequential calls with the same argument pack: the second call
starts from the storage state the first call left behind, and its
invocation index accounts for a wrapped-function invocation made by
the first call. -/
def callTwice {A K P V σ : Type} (env : Env A K P V σ) (st : σ)
    (a : A) : CallRes A K P V σ × CallRes A K P V σ :=
  let r1 := wrapperCall env st 0 a
  let r2 := wrapperCall env r1.state (funcCalls r1.events) a
  (r1, r2)

/-- Modelled from the spec: the Storage collaborator's interface contract
(spec sections 2 and 6) — the concrete backends (cacheplus/storage,
cacheplus/factories, the default in-memory implementation) are external
collaborators and their code is not under src.  A well-behaved storage:
`get` returns the payload most recently `set` for the key, or the absent
marker; it never raises and does not mutate the state.  The state is the
list of entries, newest first. -/
def memGet {K P : Type} [DecidableEq K] (st : List (K × P)) (k : K) :
    GetOutcome P × List (K × P) :=
  (.ok ((st.find? fun q => decide (q.1 = k)).map (·.2)), st)

/-- Modelled from the spec: the Storage collaborator's `set` (spec
sections 2 and 6): records the payload for the key, overwriting any
older entry; never raises.  Retention enforcement is owned by the
backend, and no time passes between the sequential calls the claims
quantify over, so the ttl is recorded but never expires an entry here. -/
def memSet {K P : Type} [DecidableEq K] (st : List (K × P)) (k : K)
    (p : P) (_ttl : Option Int) : SetOutcome × List (K × P) :=
  (.ok, (k, p) :: st)

/-- Modelled from the spec: a call argument as the key deriver sees it
(spec section 4.2) — `make_value_key` lives in cacheplus/_core, which is
not under src.  An argument carries its runtime type's name, its native
hash when the type is natively hashable, and the raw value an encoder
would be applied to. -/
structure ArgVal where
  typeName : String
  nativeHash : Option Nat
  raw : Nat
deriving DecidableEq, Repr

/-- Modelled from the spec (section 4.2): obtain a hashable
representation of one argument — the native hash when the type is
natively hashable, otherwise the configured encoder for the exact type;
if neither exists, fail naming the offending parameter and its type. -/
def hashRepr (encoders : List (String × (Nat → Nat))) (name : String)
    (a : ArgVal) : Except (String × String) Nat :=
  match a.nativeHash with
  | some h => .ok h
  | none =>
    match encoders.find? fun q => decide (q.1 = a.typeName) with
    | some q => .ok (q.2 a.raw)
    | none => .error (name, a.typeName)

/-- Insert one keyword representation into a name-sorted list. -/
def insertByName (x : String × Nat) : List (String × Nat) → List (String × Nat)
  | [] => [x]
  | y :: ys => if x.1 ≤ y.1 then x :: y :: ys else y :: insertByName x ys

/-- Sort keyword representations by parameter name, making keyword
order irrelevant to the derived key (spec section 4.2). -/
def sortByName : List (String × Nat) → List (String × Nat)
  | [] => []
  | x :: xs => insertByName x (sortByName xs)

/-- Modelled from the spec: `make_value_key` (cacheplus/_core, not under
src; spec section 4.2).  For each positional and keyword argument obtain
a hashable representation, failing with UnhashableParamError data before
anything else happens; combine the function identity token with the
positional representations in order and the keyword representations as
a name-sorted set. -/
def make_value_key (identity : Nat)
    (encoders : List (String × (Nat → Nat)))
    (args : List (String × ArgVal)) (kwargs : List (String × ArgVal)) :
    Except (String × String) (Nat × List Nat × List (String × Nat)) := do
  let ps ← args.mapM fun q => hashRepr encoders q.1 q.2
  let ks ← kwargs.mapM fun q => do
    let h ← hashRepr encoders q.1 q.2
    pure (q.1, h)
  pure (identity, ps, sortByName ks)

/-- Embedding of the decorator entry `cache_value.__call__` (value.py
lines 95-106): given a coroutine function it raises TypeError — the
spec's decoration-time ConfigurationError kind — before any wrapper
exists; otherwise it returns the wrapper closure.  The flavor check
happens here only: the returned wrapper is `wrapperCall env`, which
takes no flavor input, so no per-call check can occur. -/
def cache_value_decorate {A K P V σ : Type} (isCoroutineFunction : Bool)
    (env : Env A K P V σ) :
    Except PyClass (σ → Nat → A → CallRes A K P V σ) :=
  if isCoroutineFunction then .error .typeError
  else .ok (wrapperCall env)

/-- Embedding of the decorator entry `async_cache_value.__call__`
(value.py lines 201-212): symmetric eager rejection — given a
non-coroutine function it raises TypeError at decoration time;
otherwise it returns the async wrapper closure. -/
def async_cache_value_decorate {A K P V σ : Type}
    (isCoroutineFunction : Bool) (env : Env A K P V σ) :
    Except PyClass (σ → Nat → A → CallRes A K P V σ) :=
  if !isCoroutineFunction then .error .typeError
  else .ok (asyncWrapperCall env)

/-- An outcome is a CacheError. -/
def isCacheError {K P V : Type} : Outcome K P V → Bool
  | .cacheError _ _ _ => true
  | _ => false

/-- A concrete demonstration environment used to instantiate theorems:
keys and payloads are numbers, the codec is the identity (so round
trips trivially), the wrapped function takes no information from its
arguments and returns 42, storage is the well-behaved in-memory model,
and retention is configured to 60 seconds. -/
def demoEnv : Env Unit Nat Nat Nat (List (Nat × Nat)) where
  keyOf := fun _ => .ok 0
  get := memGet
  set := memSet
  expiresIn := some 60
  decode := fun p => .ok p
  encode := fun v => .ok v
  func := fun _ _ => .ok 42

/-- C2: on a storage miss the wrapper invokes the wrapped function with
the original argument pack, encodes the computed value, calls
Storage.set with the derived key, the encoded payload and the
configured retention duration, and returns the freshly computed
value (value.py lines 137-150). -/
theorem miss_computes_stores_returns {A K P V σ : Type}
    (env : Env A K P V σ) (st st1 st2 : σ) (n : Nat) (a : A) (k : K)
    (v : V) (p : P)
    (hkey : env.keyOf a = .ok k)
    (hget : env.get st k = (.ok none, st1))
    (hfunc : env.func n a = .ok v)
    (henc : env.encode v = .ok p)
    (hset : env.set st1 k p env.expiresIn = (.ok, st2)) :
    wrapperCall env st n a =
      ⟨.value v, st2,
        [.getCalled k, .funcCalled a, .setCalled k p env.expiresIn]⟩ := by
  simp [wrapperCall, hkey, hget, hfunc, henc, hset]

/-- Witness for C2 at the demonstration environment on empty storage. -/
theorem miss_computes_stores_returns_witness :
    wrapperCall demoEnv [] 0 () =
      ⟨.value 42, [(0, 42)],
        [.getCalled 0, .funcCalled (), .setCalled 0 42 (some 60)]⟩ :=
  miss_computes_stores_returns demoEnv [] [] [(0, 42)] 0 () 0 42 42
    rfl rfl rfl rfl rfl

/-- C3: when Storage.get raises, an ImproperlyConfiguredException
propagates unmodified; any other exception is wrapped into a CacheError
carrying the key and the operation; either way the call aborts and the
wrapped function is never invoked (value.py lines 121-128). -/
theorem get_failure_fail_closed {A K P V σ : Type}
    (env : Env A K P V σ) (st st1 : σ) (n : Nat) (a : A) (k : K)
    (e : PyExc)
    (hkey : env.keyOf a = .ok k)
    (hget : env.get st k = (.raises e, st1)) :
    (e.cls = .improperlyConfigured →
      wrapperCall env st n a = ⟨.reraised e, st1, [.getCalled k]⟩) ∧
    (e.cls ≠ .improperlyConfigured →
      wrapperCall env st n a = ⟨.cacheError .getting k e, st1, [.getCalled k]⟩) ∧
    funcCalls (wrapperCall env st n a).events = 0 := by
  refine ⟨fun h => ?_, fun h => ?_, ?_⟩
  · simp [wrapperCall, hkey, hget, h]
  · simp [wrapperCall, hkey, hget, h, funcCalls]
  · by_cases h : e.cls = PyClass.improperlyConfigured <;>
      simp [wrapperCall, hkey, hget, h, funcCalls]

/-- An environment whose storage get raises an exception that is not
the configuration class. -/
def failGetEnv : Env Unit Nat Nat Nat Unit where
  keyOf := fun _ => .ok 0
  get := fun s _ => (.raises ⟨.other 3, 9⟩, s)
  set := fun s _ _ _ => (.ok, s)
  expiresIn := none
  decode := fun p => .ok p
  encode := fun v => .ok v
  func := fun _ _ => .ok 1

/-- Witness for C3 at a storage whose get raises a non-configuration
exception. -/
theorem get_failure_fail_closed_witness :
    (PyExc.cls ⟨.other 3, 9⟩ = .improperlyConfigured →
      wrapperCall failGetEnv () 0 () = ⟨.reraised ⟨.other 3, 9⟩, (), [.getCalled 0]⟩) ∧
    (PyExc.cls ⟨.other 3, 9⟩ ≠ .improperlyConfigured →
      wrapperCall failGetEnv () 0 () =
        ⟨.cacheError .getting 0 ⟨.other 3, 9⟩, (), [.getCalled 0]⟩) ∧
    funcCalls (wrapperCall failGetEnv () 0 ()).events = 0 :=
  get_failure_fail_closed failGetEnv () () 0 () 0 ⟨.other 3, 9⟩ rfl rfl

/-- C5: when the computed value fails to encode (the designated
serialization failure classes TypeError and pickle.PicklingError, the
classes pickle.dumps uses to signal an unserializable value), the call
raises UnserializableReturnValueError carrying the value with the
original encode failure as cause, Storage.set is never called, the
storage state is untouched, and a second identical call behaves
identically (value.py lines 140-143). -/
theorem encode_failure_raises_unserializable {A K P V σ : Type}
    (env : Env A K P V σ) (st : σ) (a : A) (k : K) (v : V) (e : PyExc)
    (hkey : env.keyOf a = .ok k)
    (hget : env.get st k = (.ok none, st))
    (hfunc : ∀ m, env.func m a = .ok v)
    (henc : env.encode v = .raises e)
    (hcls : e.cls = .typeError ∨ e.cls = .pickling) :
    callTwice env st a =
      (⟨.unserializable v e, st, [.getCalled k, .funcCalled a]⟩,
       ⟨.unserializable v e, st, [.getCalled k, .funcCalled a]⟩) ∧
    setCalls [Event.getCalled (A := A) (P := P) k, .funcCalled a] = 0 := by
  have h1 : ∀ m, wrapperCall env st m a =
      ⟨.unserializable v e, st, [.getCalled k, .funcCalled a]⟩ := by
    intro m
    rcases hcls with h | h <;> simp [wrapperCall, hkey, hget, hfunc, henc, h]
  refine ⟨?_, by simp [setCalls]⟩
  simp [callTwice, h1, funcCalls]

/-- An environment whose codec cannot encode the computed value. -/
def failEncodeEnv : Env Unit Nat Nat Nat Unit where
  keyOf := fun _ => .ok 0
  get := fun s _ => (.ok none, s)
  set := fun s _ _ _ => (.ok, s)
  expiresIn := none
  decode := fun p => .ok p
  encode := fun _ => .raises ⟨.typeError, 4⟩
  func := fun _ _ => .ok 7

/-- Witness for C5 at a value that raises TypeError on pickling. -/
theorem encode_failure_raises_unserializable_witness :
    callTwice failEncodeEnv () () =
      (⟨.unserializable 7 ⟨.typeError, 4⟩, (), [.getCalled 0, .funcCalled ()]⟩,
       ⟨.unserializable 7 ⟨.typeError, 4⟩, (), [.getCalled 0, .funcCalled ()]⟩) ∧
    setCalls [Event.getCalled (A := Unit) (P := Nat) 0, .funcCalled ()] = 0 :=
  encode_failure_raises_unserializable failEncodeEnv () () 0 7 ⟨.typeError, 4⟩
    rfl rfl (fun _ => rfl) rfl (Or.inl rfl)

/-- C6: when the computed value encodes but Storage.set raises (any
exception class), the failure is wrapped into a CacheError carrying the
key and the saving operation and raised — the freshly computed value is
never returned on a write failure (value.py lines 144-149). -/
theorem set_failure_fail_closed {A K P V σ : Type}
    (env : Env A K P V σ) (st st1 st2 : σ) (n : Nat) (a : A) (k : K)
    (v : V) (p : P) (e : PyExc)
    (hkey : env.keyOf a = .ok k)
    (hget : env.get st k = (.ok none, st1))
    (hfunc : env.func n a = .ok v)
    (henc : env.encode v = .ok p)
    (hset : env.set st1 k p env.expiresIn = (.raises e, st2)) :
    wrapperCall env st n a =
      ⟨.cacheError .saving k e, st2,
        [.getCalled k, .funcCalled a, .setCalled k p env.expiresIn]⟩ := by
  simp [wrapperCall, hkey, hget, hfunc, henc, hset]

/-- An environment whose storage set always raises. -/
def failSetEnv : Env Unit Nat Nat Nat Unit where
  keyOf := fun _ => .ok 0
  get := fun s _ => (.ok none, s)
  set := fun s _ _ _ => (.raises ⟨.other 8, 2⟩, s)
  expiresIn := none
  decode := fun p => .ok p
  encode := fun v => .ok v
  func := fun _ _ => .ok 7

/-- Witness for C6 at a storage whose set raises. -/
theorem set_failure_fail_closed_witness :
    wrapperCall failSetEnv () 0 () =
      ⟨.cacheError .saving 0 ⟨.other 8, 2⟩, (),
        [.getCalled 0, .funcCalled (), .setCalled 0 7 none]⟩ :=
  set_failure_fail_closed failSetEnv () () () 0 () 0 7 7 ⟨.other 8, 2⟩
    rfl rfl rfl rfl rfl

/-- C7: when the wrapped function raises, the very same exception
propagates unmodified — not suppressed, not wrapped — nothing is
written to storage, the storage state is untouched, and a subsequent
call invokes the wrapped function again (value.py lines 137-138: the
call sits outside every try-block). -/
theorem wrapped_exception_propagates {A K P V σ : Type}
    (env : Env A K P V σ) (st : σ) (a : A) (k : K) (e : PyExc)
    (hkey : env.keyOf a = .ok k)
    (hget : env.get st k = (.ok none, st))
    (hfunc : env.func 0 a = .raises e) :
    (callTwice env st a).1 =
      ⟨.reraised e, st, [.getCalled k, .funcCalled a]⟩ ∧
    funcCalls (callTwice env st a).2.events = 1 := by
  have h1 : wrapperCall env st 0 a =
      ⟨.reraised e, st, [.getCalled k, .funcCalled a]⟩ := by
    simp [wrapperCall, hkey, hget, hfunc]
  have h2 : funcCalls (wrapperCall env st 1 a).events = 1 := by
    rcases h : env.func 1 a with v | e'
    · rcases h' : env.encode v with p | e''
      · rcases h'' : env.set st k p env.expiresIn with ⟨o, st2⟩
        rcases o <;> simp [wrapperCall, hkey, hget, h, h', h'', funcCalls]
      · by_cases hc : e''.cls = PyClass.typeError ∨ e''.cls = PyClass.pickling <;>
          simp [wrapperCall, hkey, hget, h, h', hc, funcCalls]
    · simp [wrapperCall, hkey, hget, h, funcCalls]
  constructor
  · simp [callTwice, h1]
  · simp only [callTwice]
    rw [h1]
    simpa [funcCalls] using h2

/-- An environment whose wrapped function raises an application
exception on every invocation. -/
def failFuncEnv : Env Unit Nat Nat Nat Unit where
  keyOf := fun _ => .ok 0
  get := fun s _ => (.ok none, s)
  set := fun s _ _ _ => (.ok, s)
  expiresIn := none
  decode := fun p => .ok p
  encode := fun v => .ok v
  func := fun _ _ => .raises ⟨.other 12, 3⟩

/-- Witness for C7 at a wrapped function that raises. -/
theorem wrapped_exception_propagates_witness :
    (callTwice failFuncEnv () ()).1 =
      ⟨.reraised ⟨.other 12, 3⟩, (), [.getCalled 0, .funcCalled ()]⟩ ∧
    funcCalls (callTwice failFuncEnv () ()).2.events = 1 :=
  wrapped_exception_propagates failFuncEnv () () 0 ⟨.other 12, 3⟩ rfl rfl rfl

/-- C1: for a pure no-argument decorated function over a well-behaved
storage and a codec that round-trips the value, two sequential calls
both return the value, the wrapped function executes exactly once, and
the second call's only collaborator interaction is the storage lookup:
it finds the stored payload, decodes it, and returns immediately with
no wrapped-function invocation and no write (value.py lines 107-152 and
213-261; the async wrapper is the same control flow). -/
theorem pure_call_cached_once {A K P V : Type} [DecidableEq K]
    (env : Env A K P V (List (K × P))) (a : A) (k : K) (v : V) (p : P)
    (hkey : env.keyOf a = .ok k)
    (hget : env.get = memGet)
    (hset : env.set = memSet)
    (hfunc : ∀ m, env.func m a = .ok v)
    (henc : env.encode v = .ok p)
    (hdec : env.decode p = .ok v) :
    (callTwice env [] a).1.outcome = .value v ∧
    (callTwice env [] a).2.outcome = .value v ∧
    funcCalls (callTwice env [] a).1.events = 1 ∧
    (callTwice env [] a).2.events = [.getCalled k] := by
  have h1 : wrapperCall env [] 0 a =
      ⟨.value v, [(k, p)],
        [.getCalled k, .funcCalled a, .setCalled k p env.expiresIn]⟩ := by
    simp [wrapperCall, hkey, hget, hset, memGet, memSet, hfunc, henc]
  have h2 : wrapperCall env [(k, p)] 1 a =
      ⟨.value v, [(k, p)], [.getCalled k]⟩ := by
    simp [wrapperCall, hkey, hget, memGet, List.find?, hdec]
  simp [callTwice, h1, h2, funcCalls]

/-- Witness for C1 at the demonstration environment. -/
theorem pure_call_cached_once_witness :
    (callTwice demoEnv [] ()).1.outcome = .value 42 ∧
    (callTwice demoEnv [] ()).2.outcome = .value 42 ∧
    funcCalls (callTwice demoEnv [] ()).1.events = 1 ∧
    (callTwice demoEnv [] ()).2.events = [.getCalled 0] :=
  pure_call_cached_once demoEnv () 0 42 42 rfl rfl rfl (fun _ => rfl) rfl rfl

/-- An environment whose stored payload decodes with an exception that
is not pickle.UnpicklingError: on a truncated payload, pickle.loads
raises EOFError, which the except-clause at value.py line 134 does not
catch. -/
def eofDecodeEnv : Env Unit Nat Nat Nat Unit where
  keyOf := fun _ => .ok 0
  get := fun s _ => (.ok (some 5), s)
  set := fun s _ _ _ => (.ok, s)
  expiresIn := none
  decode := fun _ => .raises ⟨.other 0, 7⟩
  encode := fun v => .ok v
  func := fun _ _ => .ok 1

/-- Counterexample to C4 as stated: a present payload whose decode
raises an exception outside the unpickling-error class (here modelling
EOFError from a truncated pickle) propagates unmodified — the outcome
is not a CacheError. -/
theorem decode_failure_not_always_wrapped :
    (wrapperCall eofDecodeEnv () 0 ()).outcome = .reraised ⟨.other 0, 7⟩ ∧
    isCacheError (wrapperCall eofDecodeEnv () 0 ()).outcome = false := by
  constructor <;> rfl

/-- C4 amended: if the present payload's decode raises the designated
unpickling-error class, the failure is wrapped into a CacheError
carrying the key and raised; a decode failure of any other exception
class propagates to the caller unmodified; in both cases the wrapped
function is not invoked and nothing is written (value.py lines
130-135). -/
theorem decode_failure_dispatch {A K P V σ : Type}
    (env : Env A K P V σ) (st st1 : σ) (n : Nat) (a : A) (k : K)
    (data : P) (e : PyExc)
    (hkey : env.keyOf a = .ok k)
    (hget : env.get st k = (.ok (some data), st1))
    (hdec : env.decode data = .raises e) :
    (e.cls = .unpickling →
      wrapperCall env st n a = ⟨.cacheError .unpickle k e, st1, [.getCalled k]⟩) ∧
    (e.cls ≠ .unpickling →
      wrapperCall env st n a = ⟨.reraised e, st1, [.getCalled k]⟩) ∧
    funcCalls (wrapperCall env st n a).events = 0 := by
  refine ⟨fun h => ?_, fun h => ?_, ?_⟩
  · simp [wrapperCall, hkey, hget, hdec, h]
  · simp [wrapperCall, hkey, hget, hdec, h]
  · by_cases h : e.cls = PyClass.unpickling <;>
      simp [wrapperCall, hkey, hget, hdec, h, funcCalls]

/-- An environment whose stored payload raises the unpickling-error
class on decode. -/
def corruptDecodeEnv : Env Unit Nat Nat Nat Unit where
  keyOf := fun _ => .ok 0
  get := fun s _ => (.ok (some 5), s)
  set := fun s _ _ _ => (.ok, s)
  expiresIn := none
  decode := fun _ => .raises ⟨.unpickling, 11⟩
  encode := fun v => .ok v
  func := fun _ _ => .ok 1

/-- Witness for the amended C4 at a payload raising UnpicklingError. -/
theorem decode_failure_dispatch_witness :
    (PyExc.cls ⟨.unpickling, 11⟩ = .unpickling →
      wrapperCall corruptDecodeEnv () 0 () =
        ⟨.cacheError .unpickle 0 ⟨.unpickling, 11⟩, (), [.getCalled 0]⟩) ∧
    (PyExc.cls ⟨.unpickling, 11⟩ ≠ .unpickling →
      wrapperCall corruptDecodeEnv () 0 () =
        ⟨.reraised ⟨.unpickling, 11⟩, (), [.getCalled 0]⟩) ∧
    funcCalls (wrapperCall corruptDecodeEnv () 0 ()).events = 0 :=
  decode_failure_dispatch corruptDecodeEnv () () 0 () 0 5 ⟨.unpickling, 11⟩
    rfl rfl rfl

/-- C8: whenever the key deriver fails with UnhashableParamError data
naming a parameter and its type, the call raises exactly that error
before any collaborator is touched — no storage read, no
wrapped-function invocation, no write, state unchanged (value.py lines
117-120); and the spec-modelled make_value_key does fail, naming the
offending parameter and type, when an argument's type is neither
natively hashable nor present in the configured type_encoders. -/
theorem unhashable_param_aborts {P V σ : Type}
    (idTok : Nat) (encoders : List (String × (Nat → Nat)))
    (env : Env (List (String × ArgVal) × List (String × ArgVal))
      (Nat × List Nat × List (String × Nat)) P V σ)
    (st : σ) (n : Nat) (name ty : String) (raw : Nat)
    (rest : List (String × ArgVal))
    (hkeyOf : env.keyOf = fun q => make_value_key idTok encoders q.1 q.2)
    (hmiss : encoders.find? (fun q => decide (q.1 = ty)) = none) :
    (∀ args kwargs pn tn,
      make_value_key idTok encoders args kwargs = .error (pn, tn) →
      wrapperCall env st n (args, kwargs) = ⟨.unhashableParam pn tn, st, []⟩) ∧
    make_value_key idTok encoders ((name, ⟨ty, none, raw⟩) :: rest) [] =
      .error (name, ty) := by
  constructor
  · intro args kwargs pn tn h
    simp [wrapperCall, hkeyOf, h]
  · simp [make_value_key, List.mapM, List.mapM.loop, hashRepr, hmiss,
      Bind.bind, Except.bind]

/-- An environment over the spec-modelled key deriver, with no
type_encoders configured. -/
def keyedEnv : Env (List (String × ArgVal) × List (String × ArgVal))
    (Nat × List Nat × List (String × Nat)) Nat Nat Unit where
  keyOf := fun q => make_value_key 5 [] q.1 q.2
  get := fun s _ => (.ok none, s)
  set := fun s _ _ _ => (.ok, s)
  expiresIn := none
  decode := fun p => .ok p
  encode := fun v => .ok v
  func := fun _ _ => .ok 1

/-- Witness for C8: a single argument of an unhashable type with no
configured encoder. -/
theorem unhashable_param_aborts_witness :
    (∀ args kwargs pn tn,
      make_value_key 5 [] args kwargs = .error (pn, tn) →
      wrapperCall keyedEnv () 0 (args, kwargs) =
        ⟨.unhashableParam pn tn, (), []⟩) ∧
    make_value_key 5 []
      [("conn", ⟨"HTTPConnection", none, 3⟩)] [] =
      .error ("conn", "HTTPConnection") :=
  unhashable_param_aborts 5 [] keyedEnv () 0 "conn" "HTTPConnection" 3 []
    rfl rfl

/-- C9: decorating a coroutine function with cache_value raises the
decoration-time configuration error (TypeError) before any wrapper
exists, and decorating a non-coroutine with async_cache_value raises
the same error class; with the matching flavor, decoration returns the
wrapper closure itself, which takes no flavor input — the check happens
once, at decoration time, never per call (value.py lines 95-100 and
201-206). -/
theorem flavor_checked_at_decoration {A K P V σ : Type}
    (env : Env A K P V σ) :
    cache_value_decorate true env = .error .typeError ∧
    async_cache_value_decorate false env = .error .typeError ∧
    cache_value_decorate false env = .ok (wrapperCall env) ∧
    async_cache_value_decorate true env = .ok (asyncWrapperCall env) :=
  ⟨rfl, rfl, rfl, rfl⟩

/-- C10: a decorated function returning the Python value None is cached
like any other value — its encoded payload is stored as a present entry
distinct from the absent marker, so the second sequential call is a
cache hit that returns None without re-invoking the wrapped function.
Values are modelled as (Option Nat) with Option.none playing None; the
absent marker lives in GetOutcome, where the stored entry appears as a
present payload. -/
theorem none_value_cached {A K P : Type} [DecidableEq K]
    (env : Env A K P (Option Nat) (List (K × P))) (a : A) (k : K) (p : P)
    (hkey : env.keyOf a = .ok k)
    (hget : env.get = memGet)
    (hset : env.set = memSet)
    (hfunc : ∀ m, env.func m a = .ok none)
    (henc : env.encode none = .ok p)
    (hdec : env.decode p = .ok none) :
    (callTwice env [] a).1.outcome = .value none ∧
    (callTwice env [] a).2.outcome = .value none ∧
    funcCalls (callTwice env [] a).1.events = 1 ∧
    (callTwice env [] a).2.events = [.getCalled k] ∧
    (memGet (callTwice env [] a).1.state k).1 = .ok (some p) := by
  have h1 : wrapperCall env [] 0 a =
      ⟨.value none, [(k, p)],
        [.getCalled k, .funcCalled a, .setCalled k p env.expiresIn]⟩ := by
    simp [wrapperCall, hkey, hget, hset, memGet, memSet, hfunc, henc]
  have h2 : wrapperCall env [(k, p)] 1 a =
      ⟨.value none, [(k, p)], [.getCalled k]⟩ := by
    simp [wrapperCall, hkey, hget, memGet, List.find?, hdec]
  simp [callTwice, h1, h2, funcCalls, memGet, List.find?]

/-- A demonstration environment whose wrapped function returns None. -/
def noneEnv : Env Unit Nat Nat (Option Nat) (List (Nat × Nat)) where
  keyOf := fun _ => .ok 0
  get := memGet
  set := memSet
  expiresIn := none
  decode := fun _ => .ok none
  encode := fun _ => .ok 99
  func := fun _ _ => .ok none

/-- Witness for C10 at the None-returning environment. -/
theorem none_value_cached_witness :
    (callTwice noneEnv [] ()).1.outcome = .value none ∧
    (callTwice noneEnv [] ()).2.outcome = .value none ∧
    funcCalls (callTwice noneEnv [] ()).1.events = 1 ∧
    (callTwice noneEnv [] ()).2.events = [.getCalled 0] ∧
    (memGet (callTwice noneEnv [] ()).1.state 0).1 = .ok (some 99) :=
  none_value_cached noneEnv () 0 99 rfl rfl rfl (fun _ => rfl) rfl rfl

end Cacheplus
